import Mathlib

/-!
Verification of the signature-based file format detection library.

The library classifies a byte buffer by scanning an ordered table of
signature rules.  Each rule carries a media type and an extension and a
list of alternatives; an alternative is a list of parts, and a part is a
byte pattern expected at a fixed offset.  `FileFormat.from_signature`
(generated in the source by the `signatures!` macro) returns the first
rule whose alternatives succeed, and `FileFormat.from_bytes` falls back
to the default format when no rule matches.

Bytes are modelled as `Nat` (each in `0..255` in the concrete table) and
buffers as `List Nat`.  The match test for a part with offset `o` and
pattern `v` is a direct translation of the generated Rust code:
`bytes.len() >= o + v.len() && &bytes[o..o + v.len()] == v`, the slice
being taken only after the length guard succeeds.
-/

/-- A file format: a media type and a preferred extension. -/
structure FileFormat where
  media_type : String
  extension : String
deriving DecidableEq

/-- One part of a signature: a byte pattern `value` expected at `offset`. -/
structure SignaturePart where
  offset : Nat
  value : List Nat
deriving DecidableEq

/-- One rule of the signature table: the resulting media type and
extension together with the list of alternatives (each an AND-list of
parts, alternatives being OR-ed). -/
structure Rule where
  media_type : String
  extension : String
  alts : List (List SignaturePart)
deriving DecidableEq

/-- The format a rule classifies to. -/
def Rule.fmt (r : Rule) : FileFormat := ⟨r.media_type, r.extension⟩

/-- The default format, returned when no signature matches
(`impl Default for FileFormat`). -/
def FileFormat.default : FileFormat := ⟨"application/octet-stream", "bin"⟩

/-- Maximum number of bytes read to detect the format
(`FileFormat::MAX_BYTES`). -/
def MAX_BYTES : Nat := 36870



def rule0 : Rule := ⟨"application/vnd.oasis.opendocument.presentation", "odp", [[⟨0, [80, 75, 3, 4]⟩, ⟨30, [109, 105, 109, 101, 116, 121, 112, 101]⟩, ⟨38, [97, 112, 112, 108, 105, 99, 97, 116, 105, 111, 110, 47, 118, 110, 100, 46, 111, 97, 115, 105, 115, 46, 111, 112, 101, 110, 100, 111, 99, 117, 109, 101, 110, 116, 46, 112, 114, 101, 115, 101, 110, 116, 97, 116, 105, 111, 110]⟩]]⟩

def rule1 : Rule := ⟨"application/vnd.oasis.opendocument.spreadsheet", "ods", [[⟨0, [80, 75, 3, 4]⟩, ⟨30, [109, 105, 109, 101, 116, 121, 112, 101]⟩, ⟨38, [97, 112, 112, 108, 105, 99, 97, 116, 105, 111, 110, 47, 118, 110, 100, 46, 111, 97, 115, 105, 115, 46, 111, 112, 101, 110, 100, 111, 99, 117, 109, 101, 110, 116, 46, 115, 112, 114, 101, 97, 100, 115, 104, 101, 101, 116]⟩]]⟩

def rule2 : Rule := ⟨"application/vnd.oasis.opendocument.graphics", "odg", [[⟨0, [80, 75, 3, 4]⟩, ⟨30, [109, 105, 109, 101, 116, 121, 112, 101]⟩, ⟨38, [97, 112, 112, 108, 105, 99, 97, 116, 105, 111, 110, 47, 118, 110, 100, 46, 111, 97, 115, 105, 115, 46, 111, 112, 101, 110, 100, 111, 99, 117, 109, 101, 110, 116, 46, 103, 114, 97, 112, 104, 105, 99, 115]⟩]]⟩

def rule3 : Rule := ⟨"application/vnd.oasis.opendocument.text", "odt", [[⟨0, [80, 75, 3, 4]⟩, ⟨30, [109, 105, 109, 101, 116, 121, 112, 101]⟩, ⟨38, [97, 112, 112, 108, 105, 99, 97, 116, 105, 111, 110, 47, 118, 110, 100, 46, 111, 97, 115, 105, 115, 46, 111, 112, 101, 110, 100, 111, 99, 117, 109, 101, 110, 116, 46, 116, 101, 120, 116]⟩]]⟩

def rule4 : Rule := ⟨"application/x-virtualbox-vdi", "vdi", [[⟨0, [60, 60, 60, 32, 79, 114, 97, 99, 108, 101, 32, 86, 77, 32, 86, 105, 114, 116, 117, 97, 108, 66, 111, 120, 32, 68, 105, 115, 107, 32, 73, 109, 97, 103, 101, 32, 62, 62, 62]⟩]]⟩

def rule5 : Rule := ⟨"application/epub+zip", "epub", [[⟨0, [80, 75, 3, 4]⟩, ⟨30, [109, 105, 109, 101, 116, 121, 112, 101]⟩, ⟨38, [97, 112, 112, 108, 105, 99, 97, 116, 105, 111, 110, 47, 101, 112, 117, 98, 43, 122, 105, 112]⟩]]⟩

def rule6 : Rule := ⟨"application/vnd.sketchup.skp", "skp", [[⟨0, [255, 254, 255, 14, 83, 0, 107, 0, 101, 0, 116, 0, 99, 0, 104, 0]⟩, ⟨16, [85, 0, 112, 0, 32, 0, 77, 0, 111, 0, 100, 0, 101, 0, 108, 0]⟩]]⟩

def rule7 : Rule := ⟨"application/vnd.debian.binary-package", "deb", [[⟨0, [33, 60, 97, 114, 99, 104, 62, 10]⟩, ⟨8, [100, 101, 98, 105, 97, 110, 45, 98, 105, 110, 97, 114, 121]⟩]]⟩

def rule8 : Rule := ⟨"application/vnd.sqlite3", "sqlite", [[⟨0, [83, 81, 76, 105, 116, 101, 32, 102, 111, 114, 109, 97, 116, 32, 51, 0]⟩]]⟩

def rule9 : Rule := ⟨"application/x-indesign", "indd", [[⟨0, [6, 6, 237, 245, 216, 29, 70, 229, 189, 49, 239, 231, 254, 116, 183, 29]⟩]]⟩

def rule10 : Rule := ⟨"application/mxf", "mxf", [[⟨0, [6, 14, 43, 52, 2, 5, 1, 1, 13, 1, 2, 1, 1, 2]⟩]]⟩

def rule11 : Rule := ⟨"audio/opus", "opus", [[⟨0, [79, 103, 103, 83]⟩, ⟨28, [79, 112, 117, 115, 72, 101, 97, 100]⟩]]⟩

def rule12 : Rule := ⟨"image/apng", "apng", [[⟨0, [137, 80, 78, 71, 13, 10, 26, 10]⟩, ⟨37, [97, 99, 84, 76]⟩]]⟩

def rule13 : Rule := ⟨"image/jpeg", "jpg", [[⟨0, [255, 216, 255, 224, 0, 16, 74, 70, 73, 70, 0, 1]⟩], [⟨0, [255, 216, 255, 225]⟩, ⟨6, [69, 120, 105, 102, 0, 0]⟩], [⟨0, [255, 216, 255, 219]⟩], [⟨0, [255, 216, 255, 238]⟩]]⟩

def rule14 : Rule := ⟨"image/jxl", "jxl", [[⟨0, [0, 0, 0, 12, 74, 88, 76, 32, 13, 10, 135, 10]⟩], [⟨0, [255, 10]⟩]]⟩

def rule15 : Rule := ⟨"image/ktx", "ktx", [[⟨0, [171, 75, 84, 88, 32, 49, 49, 187, 13, 10, 26, 10]⟩]]⟩

def rule16 : Rule := ⟨"image/ktx2", "ktx2", [[⟨0, [171, 75, 84, 88, 32, 50, 48, 187, 13, 10, 26, 10]⟩]]⟩

def rule17 : Rule := ⟨"video/x-matroska", "mkv", [[⟨0, [26, 69, 223, 163]⟩, ⟨24, [109, 97, 116, 114, 111, 115, 107, 97]⟩]]⟩

def rule18 : Rule := ⟨"audio/ogg", "ogg", [[⟨0, [79, 103, 103, 83]⟩, ⟨29, [118, 111, 114, 98, 105, 115]⟩]]⟩

def rule19 : Rule := ⟨"image/fits", "fits", [[⟨0, [83, 73, 77, 80, 76, 69, 32, 32, 61, 32]⟩]]⟩

def rule20 : Rule := ⟨"video/ogg", "ogv", [[⟨0, [79, 103, 103, 83]⟩, ⟨29, [116, 104, 101, 111, 114, 97]⟩]]⟩

def rule21 : Rule := ⟨"video/quicktime", "mov", [[⟨0, [0, 0, 0, 20]⟩, ⟨4, [102, 116, 121, 112, 113, 116]⟩]]⟩

def rule22 : Rule := ⟨"video/x-ms-asf", "wmv", [[⟨0, [48, 38, 178, 117, 142, 102, 207, 17, 166, 217]⟩]]⟩

def rule23 : Rule := ⟨"application/x-gameboy-color-rom", "gbc", [[⟨260, [206, 237, 102, 102, 204, 13, 0, 11]⟩, ⟨323, [128]⟩], [⟨260, [206, 237, 102, 102, 204, 13, 0, 11]⟩, ⟨323, [192]⟩]]⟩

def rule24 : Rule := ⟨"application/x-lzop", "lzo", [[⟨0, [137, 76, 90, 79, 0, 13, 10, 26, 10]⟩]]⟩

def rule25 : Rule := ⟨"audio/ogg", "spx", [[⟨0, [79, 103, 103, 83]⟩, ⟨28, [83, 112, 101, 101, 120]⟩]]⟩

def rule26 : Rule := ⟨"image/x-olympus-orf", "orf", [[⟨0, [73, 73, 82, 79, 8, 0, 0, 0, 24]⟩]]⟩

def rule27 : Rule := ⟨"video/ogg", "ogm", [[⟨0, [79, 103, 103, 83]⟩, ⟨29, [118, 105, 100, 101, 111]⟩]]⟩

def rule28 : Rule := ⟨"application/vnd.rar", "rar", [[⟨0, [82, 97, 114, 33, 26, 7, 1, 0]⟩], [⟨0, [82, 97, 114, 33, 26, 7, 0]⟩]]⟩

def rule29 : Rule := ⟨"application/x-gameboy-rom", "gb", [[⟨260, [206, 237, 102, 102, 204, 13, 0, 11]⟩]]⟩

def rule30 : Rule := ⟨"application/x-gba-rom", "gba", [[⟨4, [36, 255, 174, 81, 105, 154, 162, 33]⟩]]⟩

def rule31 : Rule := ⟨"application/x-mobipocket-ebook", "mobi", [[⟨60, [66, 79, 79, 75, 77, 79, 66, 73]⟩]]⟩

def rule32 : Rule := ⟨"application/x-ms-shortcut", "lnk", [[⟨0, [76, 0, 0, 0, 1, 20, 2, 0]⟩]]⟩

def rule33 : Rule := ⟨"application/x-n64-rom", "z64", [[⟨0, [128, 55, 18, 64, 0, 0, 0, 15]⟩], [⟨0, [55, 128, 64, 18, 0, 0, 15, 0]⟩], [⟨0, [18, 64, 128, 55, 0, 15, 0, 0]⟩], [⟨0, [64, 18, 55, 128, 15, 0, 0, 0]⟩]]⟩

def rule34 : Rule := ⟨"application/x-nintendo-ds-rom", "nds", [[⟨192, [36, 255, 174, 81, 105, 154, 162, 33]⟩], [⟨192, [200, 96, 79, 226, 1, 112, 143, 226]⟩]]⟩

def rule35 : Rule := ⟨"application/x-ole-storage", "msi", [[⟨0, [208, 207, 17, 224, 161, 177, 26, 225]⟩]]⟩

def rule36 : Rule := ⟨"application/x-tar", "tar", [[⟨257, [117, 115, 116, 97, 114, 0, 48, 48]⟩], [⟨257, [117, 115, 116, 97, 114, 32, 32, 0]⟩]]⟩

def rule37 : Rule := ⟨"audio/aiff", "aif", [[⟨0, [70, 79, 82, 77]⟩, ⟨8, [65, 73, 70, 70]⟩]]⟩

def rule38 : Rule := ⟨"audio/ogg", "oga", [[⟨0, [79, 103, 103, 83]⟩, ⟨29, [70, 76, 65, 67]⟩]]⟩

def rule39 : Rule := ⟨"audio/vnd.wave", "wav", [[⟨0, [82, 73, 70, 70]⟩, ⟨8, [87, 65, 86, 69]⟩]]⟩

def rule40 : Rule := ⟨"image/avif", "avif", [[⟨4, [102, 116, 121, 112, 97, 118, 105, 102]⟩]]⟩

def rule41 : Rule := ⟨"image/heic", "heic", [[⟨4, [102, 116, 121, 112, 104, 101, 105, 99]⟩], [⟨4, [102, 116, 121, 112, 104, 101, 105, 120]⟩]]⟩

def rule42 : Rule := ⟨"image/png", "png", [[⟨0, [137, 80, 78, 71, 13, 10, 26, 10]⟩]]⟩

def rule43 : Rule := ⟨"image/webp", "webp", [[⟨0, [82, 73, 70, 70]⟩, ⟨8, [87, 69, 66, 80]⟩]]⟩

def rule44 : Rule := ⟨"image/x-xcf", "xcf", [[⟨0, [103, 105, 109, 112, 32, 120, 99, 102]⟩]]⟩

def rule45 : Rule := ⟨"video/avi", "avi", [[⟨0, [82, 73, 70, 70]⟩, ⟨8, [65, 86, 73, 32]⟩]]⟩

def rule46 : Rule := ⟨"video/mp4", "mp4", [[⟨4, [102, 116, 121, 112, 97, 118, 99, 49]⟩], [⟨4, [102, 116, 121, 112, 100, 97, 115, 104]⟩], [⟨4, [102, 116, 121, 112, 105, 115, 111, 50]⟩], [⟨4, [102, 116, 121, 112, 105, 115, 111, 51]⟩], [⟨4, [102, 116, 121, 112, 105, 115, 111, 52]⟩], [⟨4, [102, 116, 121, 112, 105, 115, 111, 53]⟩], [⟨4, [102, 116, 121, 112, 105, 115, 111, 54]⟩], [⟨4, [102, 116, 121, 112, 105, 115, 111, 109]⟩], [⟨4, [102, 116, 121, 112, 109, 109, 112, 52]⟩], [⟨4, [102, 116, 121, 112, 109, 112, 52, 49]⟩], [⟨4, [102, 116, 121, 112, 109, 112, 52, 50]⟩], [⟨4, [102, 116, 121, 112, 109, 112, 52, 118]⟩], [⟨4, [102, 116, 121, 112, 109, 112, 55, 49]⟩], [⟨4, [102, 116, 121, 112, 77, 83, 78, 86]⟩], [⟨4, [102, 116, 121, 112, 78, 68, 65, 83]⟩], [⟨4, [102, 116, 121, 112, 78, 68, 83, 67]⟩], [⟨4, [102, 116, 121, 112, 78, 68, 83, 72]⟩], [⟨4, [102, 116, 121, 112, 78, 68, 83, 77]⟩], [⟨4, [102, 116, 121, 112, 78, 68, 83, 80]⟩], [⟨4, [102, 116, 121, 112, 78, 68, 83, 83]⟩], [⟨4, [102, 116, 121, 112, 78, 68, 88, 67]⟩], [⟨4, [102, 116, 121, 112, 78, 68, 88, 72]⟩], [⟨4, [102, 116, 121, 112, 78, 68, 88, 77]⟩], [⟨4, [102, 116, 121, 112, 78, 68, 88, 80]⟩], [⟨4, [102, 116, 121, 112, 70, 52, 86]⟩], [⟨4, [102, 116, 121, 112, 70, 52, 80]⟩]]⟩

def rule47 : Rule := ⟨"video/webm", "webm", [[⟨0, [26, 69, 223, 163]⟩, ⟨24, [119, 101, 98, 109]⟩]]⟩

def rule48 : Rule := ⟨"application/x-archive", "ar", [[⟨0, [33, 60, 97, 114, 99, 104, 62]⟩]]⟩

def rule49 : Rule := ⟨"application/x-blender", "blend", [[⟨0, [66, 76, 69, 78, 68, 69, 82]⟩]]⟩

def rule50 : Rule := ⟨"audio/x-m4a", "m4a", [[⟨4, [102, 116, 121, 112, 77, 52, 65]⟩]]⟩

def rule51 : Rule := ⟨"image/jp2", "jp2", [[⟨16, [102, 116, 121, 112, 106, 112, 50]⟩]]⟩

def rule52 : Rule := ⟨"video/3gpp", "3gp", [[⟨4, [102, 116, 121, 112, 51, 103, 112]⟩]]⟩

def rule53 : Rule := ⟨"video/3gpp2", "3g2", [[⟨4, [102, 116, 121, 112, 51, 103, 50]⟩]]⟩

def rule54 : Rule := ⟨"video/x-m4v", "m4v", [[⟨4, [102, 116, 121, 112, 77, 52, 86]⟩]]⟩

def rule55 : Rule := ⟨"application/x-7z-compressed", "7z", [[⟨0, [55, 122, 188, 175, 39, 28]⟩]]⟩

def rule56 : Rule := ⟨"application/x-xz", "xz", [[⟨0, [253, 55, 122, 88, 90, 0]⟩]]⟩

def rule57 : Rule := ⟨"image/gif", "gif", [[⟨0, [71, 73, 70, 56, 55, 97]⟩], [⟨0, [71, 73, 70, 56, 57, 97]⟩]]⟩

def rule58 : Rule := ⟨"application/pdf", "pdf", [[⟨0, [37, 80, 68, 70, 45]⟩]]⟩

def rule59 : Rule := ⟨"application/vnd.ms-fontobject", "eot", [[⟨8, [0, 0, 1]⟩, ⟨34, [76, 80]⟩], [⟨8, [1, 0, 2]⟩, ⟨34, [76, 80]⟩], [⟨8, [2, 0, 2]⟩, ⟨34, [76, 80]⟩]]⟩

def rule60 : Rule := ⟨"application/x-iso9660-image", "iso", [[⟨32769, [67, 68, 48, 48, 49]⟩], [⟨34817, [67, 68, 48, 48, 49]⟩], [⟨36865, [67, 68, 48, 48, 49]⟩]]⟩

def rule61 : Rule := ⟨"audio/amr", "amr", [[⟨0, [35, 33, 65, 77, 82]⟩]]⟩

def rule62 : Rule := ⟨"font/otf", "otf", [[⟨0, [79, 84, 84, 79, 0]⟩]]⟩

def rule63 : Rule := ⟨"font/ttf", "ttf", [[⟨0, [0, 1, 0, 0, 0]⟩]]⟩

def rule64 : Rule := ⟨"application/dicom", "dcm", [[⟨128, [68, 73, 67, 77]⟩]]⟩

def rule65 : Rule := ⟨"application/java-vm", "class", [[⟨0, [202, 254, 186, 190]⟩]]⟩

def rule66 : Rule := ⟨"application/ogg", "ogx", [[⟨0, [79, 103, 103, 83]⟩]]⟩

def rule67 : Rule := ⟨"application/vnd.android.dex", "dex", [[⟨0, [100, 101, 120, 10]⟩]]⟩

def rule68 : Rule := ⟨"application/vnd.ms-cab-compressed", "cab", [[⟨0, [77, 83, 67, 70]⟩], [⟨0, [73, 83, 99, 40]⟩]]⟩

def rule69 : Rule := ⟨"application/vnd.tcpdump.pcap", "pcap", [[⟨0, [161, 178, 195, 212]⟩], [⟨0, [212, 195, 178, 161]⟩]]⟩

def rule70 : Rule := ⟨"application/wasm", "wasm", [[⟨0, [0, 97, 115, 109]⟩]]⟩

def rule71 : Rule := ⟨"application/x-esri-shape", "shp", [[⟨0, [0, 0, 39, 10]⟩]]⟩

def rule72 : Rule := ⟨"application/x-executable", "elf", [[⟨0, [127, 69, 76, 70]⟩]]⟩

def rule73 : Rule := ⟨"application/x-google-chrome-extension", "crx", [[⟨0, [67, 114, 50, 52]⟩]]⟩

def rule74 : Rule := ⟨"application/x-lrzip", "lrz", [[⟨0, [76, 82, 90, 73]⟩]]⟩

def rule75 : Rule := ⟨"application/x-lz4", "lz4", [[⟨0, [4, 34, 77, 24]⟩]]⟩

def rule76 : Rule := ⟨"application/x-lzip", "lz", [[⟨0, [76, 90, 73, 80]⟩]]⟩

def rule77 : Rule := ⟨"application/x-nintendo-nes-rom", "nes", [[⟨0, [78, 69, 83, 26]⟩]]⟩

def rule78 : Rule := ⟨"application/x-pcapng", "pcapng", [[⟨0, [10, 13, 13, 10]⟩]]⟩

def rule79 : Rule := ⟨"application/x-rpm", "rpm", [[⟨0, [237, 171, 238, 219]⟩]]⟩

def rule80 : Rule := ⟨"application/x-xar", "xar", [[⟨0, [120, 97, 114, 33]⟩]]⟩

def rule81 : Rule := ⟨"application/zip", "zip", [[⟨0, [80, 75, 3, 4]⟩], [⟨0, [80, 75, 5, 6]⟩], [⟨0, [80, 75, 7, 8]⟩]]⟩

def rule82 : Rule := ⟨"application/zstd", "zst", [[⟨0, [40, 181, 47, 253]⟩]]⟩

def rule83 : Rule := ⟨"audio/basic", "au", [[⟨0, [46, 115, 110, 100]⟩]]⟩

def rule84 : Rule := ⟨"audio/midi", "mid", [[⟨0, [77, 84, 104, 100]⟩]]⟩

def rule85 : Rule := ⟨"audio/wavpack", "wv", [[⟨0, [119, 118, 112, 107]⟩]]⟩

def rule86 : Rule := ⟨"audio/x-ape", "ape", [[⟨0, [77, 65, 67, 32]⟩]]⟩

def rule87 : Rule := ⟨"audio/x-flac", "flac", [[⟨0, [102, 76, 97, 67]⟩]]⟩

def rule88 : Rule := ⟨"audio/x-musepack", "mpc", [[⟨0, [77, 80, 67, 75]⟩], [⟨0, [77, 80, 43]⟩]]⟩

def rule89 : Rule := ⟨"font/woff", "woff", [[⟨0, [119, 79, 70, 70]⟩]]⟩

def rule90 : Rule := ⟨"font/woff2", "woff2", [[⟨0, [119, 79, 70, 50]⟩]]⟩

def rule91 : Rule := ⟨"image/bpg", "bpg", [[⟨0, [66, 80, 71, 251]⟩]]⟩

def rule92 : Rule := ⟨"image/cineon", "cin", [[⟨0, [128, 42, 95, 215]⟩]]⟩

def rule93 : Rule := ⟨"image/flif", "flif", [[⟨0, [70, 76, 73, 70]⟩]]⟩

def rule94 : Rule := ⟨"image/icns", "icns", [[⟨0, [105, 99, 110, 115]⟩]]⟩

def rule95 : Rule := ⟨"image/tiff", "tiff", [[⟨0, [77, 77, 0, 42]⟩], [⟨0, [73, 73, 42, 0]⟩]]⟩

def rule96 : Rule := ⟨"image/vnd.adobe.photoshop", "psd", [[⟨0, [56, 66, 80, 83]⟩]]⟩

def rule97 : Rule := ⟨"image/wmf", "wmf", [[⟨0, [215, 205, 198, 154]⟩], [⟨0, [2, 0, 9, 0]⟩], [⟨0, [1, 0, 9, 0]⟩]]⟩

def rule98 : Rule := ⟨"image/x-dpx", "dpx", [[⟨0, [83, 68, 80, 88]⟩], [⟨0, [88, 80, 68, 83]⟩]]⟩

def rule99 : Rule := ⟨"image/x-exr", "exr", [[⟨0, [118, 47, 49, 1]⟩]]⟩

def rule100 : Rule := ⟨"image/x-icon", "ico", [[⟨0, [0, 0, 1, 0]⟩]]⟩

def rule101 : Rule := ⟨"model/gltf-binary", "glb", [[⟨0, [103, 108, 84, 70]⟩]]⟩

def rule102 : Rule := ⟨"video/mpeg", "mpg", [[⟨0, [0, 0, 1, 186]⟩], [⟨0, [0, 0, 1, 179]⟩]]⟩

def rule103 : Rule := ⟨"video/x-flv", "flv", [[⟨0, [70, 76, 86, 1]⟩]]⟩

def rule104 : Rule := ⟨"application/x-bzip2", "bz2", [[⟨0, [66, 90, 104]⟩]]⟩

def rule105 : Rule := ⟨"application/x-shockwave-flash", "swf", [[⟨0, [67, 87, 83]⟩], [⟨0, [70, 87, 83]⟩]]⟩

def rule106 : Rule := ⟨"audio/mpeg", "mp3", [[⟨0, [73, 68, 51]⟩]]⟩

def rule107 : Rule := ⟨"image/jxr", "jxr", [[⟨0, [73, 73, 188]⟩]]⟩

def rule108 : Rule := ⟨"application/gzip", "gz", [[⟨0, [31, 139]⟩]]⟩

def rule109 : Rule := ⟨"application/x-apple-diskimage", "dmg", [[⟨0, [120, 1]⟩]]⟩

def rule110 : Rule := ⟨"application/x-compress", "Z", [[⟨0, [31, 160]⟩], [⟨0, [31, 157]⟩]]⟩

def rule111 : Rule := ⟨"application/x-msdownload", "exe", [[⟨0, [77, 90]⟩]]⟩

def rule112 : Rule := ⟨"audio/aac", "aac", [[⟨0, [255, 241]⟩], [⟨0, [255, 249]⟩]]⟩

def rule113 : Rule := ⟨"audio/vnd.dolby.dd-raw", "ac3", [[⟨0, [11, 119]⟩]]⟩

def rule114 : Rule := ⟨"image/bmp", "bmp", [[⟨0, [66, 77]⟩]]⟩

def rule115 : Rule := ⟨"video/mp2t", "m2ts", [[⟨0, [71]⟩, ⟨188, [71]⟩], [⟨4, [71]⟩, ⟨196, [71]⟩]]⟩

/-- The signature table, transcribed rule by rule, in declaration order, from the `signatures!` block of the source. -/
def table : List Rule := [
  rule0, rule1, rule2, rule3, rule4, rule5, rule6, rule7, rule8, rule9, rule10, rule11, rule12, rule13, rule14, rule15, rule16, rule17, rule18, rule19, rule20, rule21, rule22, rule23, rule24, rule25, rule26, rule27, rule28, rule29, rule30, rule31, rule32, rule33, rule34, rule35, rule36, rule37, rule38, rule39, rule40, rule41, rule42, rule43, rule44, rule45, rule46, rule47, rule48, rule49, rule50, rule51, rule52, rule53, rule54, rule55, rule56, rule57, rule58, rule59, rule60, rule61, rule62, rule63, rule64, rule65, rule66, rule67, rule68, rule69, rule70, rule71, rule72, rule73, rule74, rule75, rule76, rule77, rule78, rule79, rule80, rule81, rule82, rule83, rule84, rule85, rule86, rule87, rule88, rule89, rule90, rule91, rule92, rule93, rule94, rule95, rule96, rule97, rule98, rule99, rule100, rule101, rule102, rule103, rule104, rule105, rule106, rule107, rule108, rule109, rule110, rule111, rule112, rule113, rule114, rule115
]

def catalogChunk0 : List (String × String) := [
  ("audio/amr", "amr"),
  ("audio/mp4", "f4a"),
  ("audio/mp4", "f4b"),
  ("video/mp4", "f4p"),
  ("video/mp4", "f4v"),
  ("application/vnd.adobe.illustrator", "ai"),
  ("application/x-indesign", "indd"),
  ("image/vnd.adobe.photoshop", "psd"),
  ("audio/aac", "aac"),
  ("application/x-alz-compressed", "alz"),
  ("application/vnd.android.axml", "xml"),
  ("application/vnd.android.arsc", "arsc"),
  ("application/vnd.android.package-archive", "apk"),
  ("image/apng", "apng"),
  ("application/x-apache-arrow", "arrow"),
  ("application/vnd.apache.avro", "avro"),
  ("application/x-parquet", "parquet"),
  ("application/x-apple-diskimage", "dmg"),
  ("image/x-icns", "icns"),
  ("audio/x-m4a", "m4a"),
  ("audio/mp4", "m4b"),
  ("audio/mp4", "m4p"),
  ("video/x-m4v", "m4v"),
  ("video/quicktime", "mov"),
  ("application/octet-stream", "bin"),
  ("application/x-arj", "arj"),
  ("audio/basic", "au"),
  ("audio/vnd.dolby.dd-raw", "ac3"),
  ("audio/aiff", "aiff"),
  ("video/avi", "avi"),
  ("image/vnd.dwg", "dwg"),
  ("image/avif", "avif"),
  ("image/avif-sequence", "avifs"),
  ("image/bpg", "bpg"),
  ("application/x-bittorrent", "torrent"),
  ("application/x-blender", "blend"),
  ("application/x-bzip2", "bz2"),
  ("application/vnd.ms-cab-compressed", "cab"),
  ("image/x-canon-cr2", "cr2"),
  ("image/x-canon-cr3", "cr3"),
  ("image/cineon", "cin"),
  ("application/vnd.circuitdiagram.document.main+xml", "cddx"),
  ("text/x-clojure", "clj"),
  ("application/x-coff", "coff"),
  ("application/x-cfb", "cfb"),
  ("application/x-cpio", "cpio"),
  ("audio/x-voc", "voc"),
  ("application/vnd.android.dex", "dex"),
  ("application/vnd.debian.binary-package", "deb"),
  ("application/x-x509-ca-cert", "der"),
  ("model/vnd.dwfx+xps", "dwfx"),
  ("application/dicom", "dcm"),
  ("image/x-dpx", "dpx"),
  ("image/vnd.djvu", "djvu"),
  ("application/vnd.jgraph.mxfile", "drawio"),
  ("application/vnd.microsoft.portable-executable", "dll"),
  ("application/epub+zip", "epub"),
  ("application/vnd.ms-fontobject", "eot"),
  ("application/eps", "eps"),
  ("application/java-archive", "ear"),
  ("application/x-executable", "elf"),
  ("image/x-xcf", "xcf"),
  ("model/x3d+xml", "x3d"),
  ("application/x-xar", "xar")
]

def catalogChunk1 : List (String × String) := [
  ("text/xml", "xml"),
  ("application/xslt+xml", "xsl"),
  ("audio/x-xm", "xm"),
  ("video/x-flv", "flv"),
  ("image/fits", "fits"),
  ("audio/x-flac", "flac"),
  ("image/flif", "flif"),
  ("image/x-fuji-raf", "raf"),
  ("application/x-gba-rom", "gba"),
  ("application/x-gameboy-color-rom", "gbc"),
  ("application/x-gameboy-rom", "gb"),
  ("application/gml+xml", "gml"),
  ("model/gltf-binary", "glb"),
  ("application/x-google-chrome-extension", "crx"),
  ("model/x-draco", "drc"),
  ("application/gpx+xml", "gpx"),
  ("image/gif", "gif"),
  ("application/gzip", "gz"),
  ("image/heic", "heic"),
  ("image/heic-sequence", "heics"),
  ("image/heif", "heif"),
  ("image/heif-sequence", "heifs"),
  ("text/html", "html"),
  ("text/calendar", "ics"),
  ("application/vnd.iccprofile", "icc"),
  ("audio/x-it", "it"),
  ("application/vnd.adobe.indesign-idml-package", "idml"),
  ("application/x-ios-app", "ipa"),
  ("application/x-iso9660-image", "iso"),
  ("application/java-archive", "jar"),
  ("application/java-vm", "class"),
  ("application/x-java-keystore", "jks"),
  ("image/jpeg", "jpg"),
  ("image/jp2", "jp2"),
  ("image/jpx", "jpx"),
  ("image/mj2", "mj2"),
  ("image/jpm", "jpm"),
  ("image/jxr", "jxr"),
  ("image/jls", "jls"),
  ("image/jxl", "jxl"),
  ("application/vnd.google-earth.kml+xml", "kml"),
  ("application/vnd.google-earth.kmz", "kmz"),
  ("image/ktx", "ktx"),
  ("image/ktx2", "ktx2"),
  ("application/x-lzh-compressed", "lzs"),
  ("text/x-tex", "tex"),
  ("application/x-lzfse", "lzfse"),
  ("application/x-lzh-compressed", "lzh"),
  ("application/x-llvm", "bc"),
  ("application/x-lrzip", "lrz"),
  ("application/x-lua-bytecode", "luac"),
  ("text/x-lua", "lua"),
  ("application/x-lz4", "lz4"),
  ("application/x-lzip", "lz"),
  ("application/x-lzop", "lzo"),
  ("application/x-mach-binary", "mach"),
  ("application/x-apple-alias", "alias"),
  ("application/mxf", "mxf"),
  ("video/x-matroska", "mkv"),
  ("application/x-mie", "mie"),
  ("application/x-msaccess", "accdb"),
  ("application/x-msaccess", "mdb"),
  ("application/vnd.ms-htmlhelp", "chm"),
  ("image/vnd-ms.dds", "dds")
]

def catalogChunk2 : List (String × String) := [
  ("application/vnd.ms-excel", "xls"),
  ("application/vnd.ms-powerpoint", "ppt"),
  ("application/vnd.ms-project", "mpp"),
  ("application/vnd.ms-publisher", "pub"),
  ("application/x-msi", "msi"),
  ("application/x-vhd", "vhd"),
  ("application/x-vhdx", "vhdx"),
  ("application/vnd.visio", "vsd"),
  ("application/vsix", "vsix"),
  ("application/vnd.ms-developer", "sln"),
  ("application/msword", "doc"),
  ("application/x-mobipocket-ebook", "mobi"),
  ("audio/x-ape", "ape"),
  ("audio/x-mpegurl", "m3u"),
  ("audio/mpeg", "mp3"),
  ("audio/mpeg", "mp1"),
  ("audio/mpeg", "mp2"),
  ("video/mpeg", "mpg"),
  ("video/mp2t", "mts"),
  ("video/mp4", "mp4"),
  ("application/x-dosexec", "exe"),
  ("audio/x-musepack", "mpc"),
  ("audio/midi", "mid"),
  ("application/vnd.recordare.musicxml+xml", "musicxml"),
  ("application/vnd.recordare.musicxml", "mxl"),
  ("image/x-nikon-nef", "nef"),
  ("application/x-n64-rom", "z64"),
  ("application/x-nintendo-ds-rom", "nds"),
  ("application/x-nintendo-nes-rom", "nes"),
  ("application/vnd.openxmlformats-officedocument.wordprocessingml.document", "docx"),
  ("application/vnd.ms-visio.drawing.main+xml", "vsdx"),
  ("application/vnd.openxmlformats-officedocument.presentationml.presentation", "pptx"),
  ("application/vnd.openxmlformats-officedocument.spreadsheetml.sheet", "xlsx"),
  ("audio/ogg", "oga"),
  ("video/ogg", "ogm"),
  ("application/ogg", "ogx"),
  ("audio/opus", "opus"),
  ("audio/ogg", "spx"),
  ("video/ogg", "ogv"),
  ("audio/ogg", "ogg"),
  ("image/x-olympus-orf", "orf"),
  ("application/vnd.oasis.opendocument.graphics", "odg"),
  ("application/vnd.oasis.opendocument.presentation", "odp"),
  ("application/vnd.oasis.opendocument.spreadsheet", "ods"),
  ("application/vnd.oasis.opendocument.text", "odt"),
  ("image/x-exr", "exr"),
  ("image/openraster", "ora"),
  ("font/otf", "otf"),
  ("application/vnd.android.dey", "dey"),
  ("image/x-panasonic-rw2", "rw2"),
  ("application/vnd.tcpdump.pcap", "pcap"),
  ("application/x-pcapng", "pcapng"),
  ("application/x-pem-file", "crt"),
  ("application/x-pem-file", "csr"),
  ("application/x-pem-file", "key"),
  ("text/x-perl", "pl"),
  ("application/vnd.ms-outlook", "pst"),
  ("application/pgp", "asc"),
  ("application/pgp-keys", "asc"),
  ("application/pgp-keys", "asc"),
  ("application/pgp-signature", "asc"),
  ("application/pgp", "asc"),
  ("text/plain", "txt"),
  ("application/x-lzh-compressed", "pma")
]

def catalogChunk3 : List (String × String) := [
  ("application/pdf", "pdf"),
  ("application/vnd.microsoft.portable-executable", "exe"),
  ("image/png", "png"),
  ("application/postscript", "ps"),
  ("text/x-script.python", "py"),
  ("audio/qcelp", "qcp"),
  ("image/vnd.radiance", "hdr"),
  ("application/rss+xml", "rss"),
  ("application/x-rpm", "rpm"),
  ("application/rtf", "rtf"),
  ("application/vnd.rar", "rar"),
  ("text/x-ruby", "rb"),
  ("image/svg+xml", "svg"),
  ("audio/x-s3m", "s3m"),
  ("application/x-sbx", "sbx"),
  ("application/x-7z-compressed", "7z"),
  ("application/x-esri-shape", "shp"),
  ("text/x-shellscript", "sh"),
  ("application/soap+xml", "soap"),
  ("application/vnd.sketchup.skp", "skp"),
  ("application/x-shockwave-flash", "swf"),
  ("application/x-snappy-framed", "sz"),
  ("audio/x-dsf", "dsf"),
  ("video/quicktime", "mqv"),
  ("application/vnd.sqlite3", "sqlite"),
  ("image/tiff", "tiff"),
  ("application/x-tar", "tar"),
  ("application/x-tasty", "tasty"),
  ("video/3gpp", "3gp"),
  ("video/3gpp2", "3g2"),
  ("application/vnd.ms-package.3dmanufacturing-3dmodel+xml", "3mf"),
  ("text/x-tcl", "tcl"),
  ("font/ttf", "ttf"),
  ("application/x-archive", "a"),
  ("application/x-compress", "Z"),
  ("text/calendar", "vcs"),
  ("text/vcard", "vcf"),
  ("application/x-virtualbox-vdi", "vdi"),
  ("audio/vnd.wave", "wav"),
  ("audio/wavpack", "wv"),
  ("application/java-archive", "war"),
  ("font/woff", "woff"),
  ("font/woff2", "woff2"),
  ("application/wasm", "wasm"),
  ("video/webm", "webm"),
  ("image/webp", "webp"),
  ("application/x-navi-animation", "ani"),
  ("application/vnd.ms-appx", "appx"),
  ("image/bmp", "bmp"),
  ("image/x-icon", "cur"),
  ("image/x-icon", "ico"),
  ("video/x-ms-asf", "wmv"),
  ("image/wmf", "wmf"),
  ("application/x-ms-shortcut", "lnk"),
  ("application/x-silverlight-app", "xap"),
  ("application/xliff+xml", "xlf"),
  ("application/x-xpinstall", "xpi"),
  ("application/x-xz", "xz"),
  ("application/zip", "zip"),
  ("application/x-zoo", "zoo"),
  ("application/zstd", "zst")
]

/-- The (media type, extension) pairs of the catalog, transcribed entry by entry, in declaration order, from the `formats!` block of `formats.rs`. -/
def catalogPairs : List (String × String) := catalogChunk0 ++ catalogChunk1 ++ catalogChunk2 ++ catalogChunk3

/-- The bounds-checked equality test for one signature part, translated
from the generated matching code:
`bytes.len() >= offset + value.len() && &bytes[offset..offset + value.len()] == value`. -/
def matchPart (bytes : List Nat) (p : SignaturePart) : Bool :=
  decide (p.offset + p.value.length ≤ bytes.length) &&
    ((bytes.drop p.offset).take p.value.length == p.value)

/-- An alternative succeeds iff every part of it matches (the `&&` chain
of the generated code). -/
def matchAlt (bytes : List Nat) (ps : List SignaturePart) : Bool :=
  ps.all (matchPart bytes)

/-- A rule succeeds iff some alternative succeeds (the `||` chain of the
generated code). -/
def matchRule (bytes : List Nat) (r : Rule) : Bool :=
  r.alts.any (matchAlt bytes)

/-- Translation of `FileFormat::from_signature`: the generated chain of
conditionals returning the matched format, i.e. the first rule of the
table that succeeds on the buffer. -/
def from_signature (bytes : List Nat) : Option FileFormat :=
  (table.find? (matchRule bytes)).map Rule.fmt

/-- Translation of `FileFormat::from_bytes`, which is
`from_signature(bytes).unwrap_or_default()`. -/
def from_bytes (bytes : List Nat) : FileFormat :=
  (from_signature bytes).getD FileFormat.default


/-! Specification-side matcher

The following definitions follow the wording of the specification of the
matching algorithm, to be compared with the translation `from_bytes` of
the generated code: a part matches a buffer `b` iff
`len(b) >= offset + len(pattern)` and the bytes of `b` from `offset` to
`offset + len(pattern)` equal the pattern; an alternative succeeds iff
every part matches; a rule succeeds iff some alternative succeeds; the
result is the format of the first successful rule in table order, and
the default format when no rule succeeds. -/

/-- Spec wording of the part test: the length bound together with a
pointwise comparison of the bytes of `b` from `offset` onwards with the
pattern. -/
def specPartMatches (b : List Nat) (p : SignaturePart) : Bool :=
  decide (p.offset + p.value.length ≤ b.length) &&
    decide (∀ i, i < p.value.length → b[p.offset + i]? = p.value[i]?)

/-- Spec wording of the scan: the first rule of the table having at
least one alternative all of whose parts match. -/
def specFirstRule (b : List Nat) : Option Rule :=
  table.find? fun r => r.alts.any fun a => a.all (specPartMatches b)

/-- Spec wording of the classification result: the format of the first
successful rule, or the default format when there is none. -/
def specClassify (b : List Nat) : FileFormat :=
  ((specFirstRule b).map Rule.fmt).getD FileFormat.default

/-! Panic-aware matcher

Rust slice indexing `&bytes[o..o + l]` panics when `o + l` exceeds the
buffer length.  The definitions below mirror the generated matching code
with the panic made explicit as `none`: the slice is taken only when the
preceding length check has succeeded, exactly as the `&&` of the source
short-circuits.  `from_bytesChecked` returning `some` shows that the
whole computation is panic-free. -/

/-- A bounds-checked Rust slice `&bytes[o..o + l]`: `none` models the
panic on an out-of-range slice. -/
def slice? (bytes : List Nat) (o l : Nat) : Option (List Nat) :=
  if o + l ≤ bytes.length then some ((bytes.drop o).take l) else none

/-- The part test with the panic made explicit; the slice is evaluated
only when the length check has succeeded. -/
def matchPartChecked (bytes : List Nat) (p : SignaturePart) : Option Bool :=
  if p.offset + p.value.length ≤ bytes.length then
    (slice? bytes p.offset p.value.length).map (fun s => s == p.value)
  else some false

/-- The short-circuiting `&&` chain over the parts of an alternative. -/
def matchAltChecked (bytes : List Nat) : List SignaturePart → Option Bool
  | [] => some true
  | p :: ps =>
    (matchPartChecked bytes p).bind fun x =>
      if x then matchAltChecked bytes ps else some false

/-- The short-circuiting `||` chain over the alternatives of a rule. -/
def matchAltsChecked (bytes : List Nat) : List (List SignaturePart) → Option Bool
  | [] => some false
  | a :: as =>
    (matchAltChecked bytes a).bind fun x =>
      if x then some true else matchAltsChecked bytes as

/-- The rule scan with the panic made explicit. -/
def scanChecked (bytes : List Nat) : List Rule → Option (Option FileFormat)
  | [] => some none
  | r :: rs =>
    (matchAltsChecked bytes r.alts).bind fun x =>
      if x then some (some r.fmt) else scanChecked bytes rs

/-- Version of `from_signature` with the panic made explicit. -/
def from_signatureChecked (bytes : List Nat) : Option (Option FileFormat) :=
  scanChecked bytes table

/-- Version of `from_bytes` with the panic made explicit: `some` means the
computation completed without panicking. -/
def from_bytesChecked (bytes : List Nat) : Option FileFormat :=
  (from_signatureChecked bytes).map fun r => r.getD FileFormat.default

/-! Certified mismatch checking

For claims quantifying over partially unknown buffers we use a small
certificate checker: `poss i` lists the values byte `i` of the buffer
can take (`[]` when the byte is unconstrained).  `killsPart` checks that
some pattern position is constrained and disagrees with every possible
value, which refutes the part on every buffer agreeing with `poss`. -/

/-- Statement that `poss` soundly describes `b`: any present byte of `b` at a
constrained index takes one of the listed values. -/
def Sound (b : List Nat) (poss : Nat → List Nat) : Prop :=
  ∀ i w, b[i]? = some w → poss i = [] ∨ w ∈ poss i

/-- The certificate check for one part: some position `k` of the pattern
lands on a constrained byte and differs from all of its possible
values. -/
def killsPart (poss : Nat → List Nat) (p : SignaturePart) : Bool :=
  (List.range p.value.length).any fun k =>
    !(poss (p.offset + k)).isEmpty &&
      (poss (p.offset + k)).all fun w => p.value[k]? != some w

/-- The certificate check for a rule: every alternative contains a
refuted part. -/
def killsRule (poss : Nat → List Nat) (r : Rule) : Bool :=
  r.alts.all fun a => a.any (killsPart poss)

/-- Byte knowledge for a buffer of the form
`"RIFF" ++ filler ++ tag ++ zeros` with a four-byte filler and a
four-byte tag. -/
def possRiff (tag : List Nat) (i : Nat) : List Nat :=
  if i < 4 then [[82, 73, 70, 70].getD i 0]
  else if 8 ≤ i ∧ i < 12 then [tag.getD (i - 8) 0]
  else if 12 ≤ i then [0]
  else []

/-- Byte knowledge for a buffer starting with the eight-byte PNG
header. -/
def possPng (i : Nat) : List Nat :=
  if i < 8 then [[137, 80, 78, 71, 13, 10, 26, 10].getD i 0] else []

/-! Lower-case ASCII strings and the catalog -/

/-- Check that `s` is a lower-case ASCII string: every character is ASCII and none
is an upper-case letter. -/
def lowerAscii (s : String) : Bool :=
  s.data.all fun c =>
    decide (c.toNat < 128) && !(decide (65 ≤ c.toNat) && decide (c.toNat ≤ 90))

/-- The six (media type, extension) pairs of the signature table that
have no catalog entry with exactly that pair. -/
def missingPairs : List (String × String) :=
  [("audio/aiff", "aif"), ("application/x-archive", "ar"),
   ("video/mp2t", "m2ts"), ("application/x-msdownload", "exe"),
   ("image/icns", "icns"), ("application/x-ole-storage", "msi")]

/-! Basic lemmas about the part test -/

lemma slice_getElem? (b : List Nat) (o l k : Nat) :
    ((b.drop o).take l)[k]? = if k < l then b[o + k]? else none := by
  rw [List.getElem?_take]
  by_cases h : k < l
  · simp [h, List.getElem?_drop]
  · simp [h]

lemma matchPart_iff (b : List Nat) (p : SignaturePart) :
    matchPart b p = true ↔
      p.offset + p.value.length ≤ b.length ∧
        (b.drop p.offset).take p.value.length = p.value := by
  simp [matchPart, Bool.and_eq_true, decide_eq_true_eq, beq_iff_eq]

lemma matchPart_getElem? (b : List Nat) (p : SignaturePart)
    (h : matchPart b p = true) :
    ∀ k, k < p.value.length → b[p.offset + k]? = p.value[k]? := by
  obtain ⟨hl, hs⟩ := (matchPart_iff b p).mp h
  intro k hk
  have hg := congrArg (fun l : List Nat => l[k]?) hs
  simp only [slice_getElem?, hk, if_pos] at hg
  exact hg

lemma matchPart_false_of_short (b : List Nat) (p : SignaturePart)
    (h : b.length < p.offset + p.value.length) : matchPart b p = false := by
  unfold matchPart
  rw [decide_eq_false (Nat.not_le.mpr h), Bool.false_and]

lemma matchPart_of_slice (b : List Nat) (o : Nat) (v : List Nat)
    (h1 : o + v.length ≤ b.length) (h2 : (b.drop o).take v.length = v) :
    matchPart b ⟨o, v⟩ = true := by
  exact (matchPart_iff b ⟨o, v⟩).mpr ⟨h1, h2⟩

/-! Soundness of the certificate checker -/

lemma matchPart_false_of_kills (b : List Nat) (poss : Nat → List Nat)
    (p : SignaturePart) (hs : Sound b poss) (hk : killsPart poss p = true) :
    matchPart b p = false := by
  cases hmp : matchPart b p with
  | false => rfl
  | true =>
    exfalso
    obtain ⟨k, hkr, hcond⟩ := List.any_eq_true.mp hk
    rw [Bool.and_eq_true] at hcond
    obtain ⟨hne, hall⟩ := hcond
    have hklen : k < p.value.length := List.mem_range.mp hkr
    have hb := matchPart_getElem? b p hmp k hklen
    have hv := List.getElem?_eq_getElem hklen
    rw [hv] at hb
    rcases hs (p.offset + k) _ hb with hemp | hmem
    · rw [hemp] at hne
      simp at hne
    · have := List.all_eq_true.mp hall _ hmem
      rw [hv] at this
      simp at this

lemma matchRule_false_of_kills (b : List Nat) (poss : Nat → List Nat)
    (r : Rule) (hs : Sound b poss) (hk : killsRule poss r = true) :
    matchRule b r = false := by
  cases hmr : matchRule b r with
  | false => rfl
  | true =>
    exfalso
    obtain ⟨a, ha, hma⟩ := List.any_eq_true.mp hmr
    obtain ⟨p, hp, hkp⟩ := List.any_eq_true.mp (List.all_eq_true.mp hk a ha)
    have hpm := List.all_eq_true.mp hma p hp
    rw [matchPart_false_of_kills b poss p hs hkp] at hpm
    exact Bool.false_ne_true hpm

lemma find?_eq_none_of_kills (b : List Nat) (poss : Nat → List Nat)
    (l : List Rule) (hs : Sound b poss) (hk : l.all (killsRule poss) = true) :
    l.find? (matchRule b) = none := by
  refine List.find?_eq_none.mpr fun r hr => ?_
  rw [matchRule_false_of_kills b poss r hs (List.all_eq_true.mp hk r hr)]
  simp

lemma find?_append_none {α} (p : α → Bool) (l1 l2 : List α)
    (h : l1.find? p = none) : (l1 ++ l2).find? p = l2.find? p := by
  rw [List.find?_append, h]
  rfl

lemma find?_congr_mem {α} (p q : α → Bool) (l : List α)
    (h : ∀ a ∈ l, p a = q a) : l.find? p = l.find? q := by
  induction l with
  | nil => rfl
  | cons a t ih =>
    rw [List.find?_cons, List.find?_cons, h a (List.mem_cons_self a t)]
    cases q a with
    | false => exact ih fun x hx => h x (List.mem_cons_of_mem _ hx)
    | true => rfl

/-! The range of `from_bytes` -/

lemma from_bytes_mem (b : List Nat) :
    from_bytes b = FileFormat.default ∨
      ∃ r ∈ table, from_bytes b = r.fmt := by
  unfold from_bytes from_signature
  cases h : table.find? (matchRule b) with
  | none => left; rfl
  | some r =>
    right
    exact ⟨r, List.mem_of_find?_eq_some h, rfl⟩

/-! Decidable properties of the concrete table -/

lemma table_lower :
    (table.all fun r =>
      lowerAscii r.media_type && (lowerAscii r.extension || r.extension == "Z")) = true := by
  decide

lemma table_nonzero :
    (table.all fun r => r.alts.all fun a =>
      a.any fun p => p.value.any fun x => x != 0) = true := by
  decide

lemma table_minlen :
    (table.all fun r => r.alts.all fun a =>
      a.any fun p => decide (2 ≤ p.offset + p.value.length)) = true := by
  decide

lemma table_window :
    (table.all fun r => r.alts.all fun a =>
      a.all fun p => decide (p.offset + p.value.length ≤ MAX_BYTES)) = true := by
  decide

set_option maxRecDepth 40000 in
set_option maxHeartbeats 2000000 in
lemma catalog_covers :
    (catalogPairs.contains ("application/octet-stream", "bin")) = true ∧
    (table.all fun r =>
      catalogPairs.contains (r.media_type, r.extension) ||
        missingPairs.contains (r.media_type, r.extension)) = true := by
  constructor <;> decide

/-! Zero buffers -/

lemma matchPart_replicate_zero (n : Nat) (p : SignaturePart)
    (hv : (p.value.any fun x => x != 0) = true) :
    matchPart (List.replicate n 0) p = false := by
  cases hmp : matchPart (List.replicate n 0) p with
  | false => rfl
  | true =>
    exfalso
    obtain ⟨x, hx, hxne⟩ := List.any_eq_true.mp hv
    obtain ⟨hl, hs⟩ := (matchPart_iff _ p).mp hmp
    rw [List.drop_replicate, List.take_replicate] at hs
    have hx0 : x = 0 := List.eq_of_mem_replicate (hs ▸ hx)
    rw [hx0] at hxne
    simp at hxne

lemma from_signature_replicate_zero (n : Nat) :
    from_signature (List.replicate n 0) = none := by
  unfold from_signature
  rw [List.find?_eq_none.mpr]
  · rfl
  intro r hr
  have hprop := List.all_eq_true.mp table_nonzero r hr
  intro hmr
  obtain ⟨a, ha, hma⟩ := List.any_eq_true.mp hmr
  obtain ⟨p, hp, hpnz⟩ := List.any_eq_true.mp (List.all_eq_true.mp hprop a ha)
  have hpm := List.all_eq_true.mp hma p hp
  rw [matchPart_replicate_zero n p hpnz] at hpm
  exact Bool.false_ne_true hpm

/-- C5: the empty buffer and every all-zero buffer classify as the
default format `(application/octet-stream, bin)`. -/
theorem C5_default_on_zero :
    from_bytes [] = FileFormat.default ∧
      ∀ n : Nat, from_bytes (List.replicate n 0) = FileFormat.default := by
  refine ⟨rfl, fun n => ?_⟩
  unfold from_bytes
  rw [from_signature_replicate_zero n]
  rfl

/-! Short buffers -/

lemma from_signature_short (b : List Nat) (hb : b.length ≤ 1) :
    from_signature b = none := by
  unfold from_signature
  rw [List.find?_eq_none.mpr]
  · rfl
  intro r hr
  have hprop := List.all_eq_true.mp table_minlen r hr
  intro hmr
  obtain ⟨a, ha, hma⟩ := List.any_eq_true.mp hmr
  obtain ⟨p, hp, hplen⟩ := List.any_eq_true.mp (List.all_eq_true.mp hprop a ha)
  have hpm := List.all_eq_true.mp hma p hp
  have h2 : (2 : Nat) ≤ p.offset + p.value.length := of_decide_eq_true hplen
  rw [matchPart_false_of_short b p (by omega)] at hpm
  exact Bool.false_ne_true hpm

/-- C10: a buffer of length at most one never matches any rule — every
alternative of the table has a part whose required window ends at index
two or beyond — so `from_bytes` returns the default format whatever the
byte value is. -/
theorem C10_short_buffers :
    ∀ b : List Nat, b.length ≤ 1 → from_bytes b = FileFormat.default := by
  intro b hb
  unfold from_bytes
  rw [from_signature_short b hb]
  rfl

/-- Witness for C10 at the one-byte buffer `[0x47]` (the sync byte of the
`video/mp2t` rule, whose alternatives also need a byte at index 188 or
196). -/
theorem C10_short_buffers_witness : from_bytes [71] = FileFormat.default :=
  C10_short_buffers [71] (by decide)

/-! Lower-case ASCII classification results -/

/-- C3 counterexample: the buffer `0x1F 0xA0` classifies as
`(application/x-compress, Z)` whose extension `"Z"` is an upper-case
letter, so the returned extension is not always lower-case. -/
theorem C3_counterexample :
    from_bytes [31, 160] = ⟨"application/x-compress", "Z"⟩ ∧
      lowerAscii (from_bytes [31, 160]).extension = false := by
  constructor <;> rfl

/-- C3 amended: for every input the media type of the result is a
lower-case ASCII string, and the extension is a lower-case ASCII string
except for the single rule `application/x-compress` whose extension is
`"Z"`. -/
theorem C3_amended_lower_ascii :
    ∀ b : List Nat,
      lowerAscii (from_bytes b).media_type = true ∧
        (lowerAscii (from_bytes b).extension = true ∨
          (from_bytes b).extension = "Z") := by
  intro b
  rcases from_bytes_mem b with h | ⟨r, hr, h⟩
  · rw [h]
    exact ⟨by decide, Or.inl (by decide)⟩
  · have hprop := List.all_eq_true.mp table_lower r hr
    rw [Bool.and_eq_true, Bool.or_eq_true] at hprop
    obtain ⟨hm, he⟩ := hprop
    rw [h]
    refine ⟨hm, ?_⟩
    rcases he with he | he
    · exact Or.inl he
    · exact Or.inr (by simpa using he)

/-! Catalog coverage -/

set_option maxRecDepth 40000 in
set_option maxHeartbeats 2000000 in
/-- C8 counterexample: the buffer `"MZ"` classifies as
`(application/x-msdownload, exe)`, a returnable pair that has no entry
in the catalog (the catalog lists extension `exe` only under
`application/x-dosexec` and
`application/vnd.microsoft.portable-executable`). -/
theorem C8_counterexample :
    from_bytes [77, 90] = ⟨"application/x-msdownload", "exe"⟩ ∧
      catalogPairs.contains ("application/x-msdownload", "exe") = false := by
  constructor <;> rfl

set_option maxRecDepth 40000 in
set_option maxHeartbeats 2000000 in
/-- C8 amended: the catalog contains the default pair
`(application/octet-stream, bin)` and the (media type, extension) pair
of every rule of the signature table except the six pairs listed in
`missingPairs`, none of which has a catalog entry. -/
theorem C8_amended_catalog :
    catalogPairs.contains ("application/octet-stream", "bin") = true ∧
      (table.all fun r =>
        catalogPairs.contains (r.media_type, r.extension) ||
          missingPairs.contains (r.media_type, r.extension)) = true ∧
      (missingPairs.all fun q => !(catalogPairs.contains q)) = true := by
  exact ⟨catalog_covers.1, catalog_covers.2, by decide⟩

/-! GIF alternatives -/

/-- C9: the six-byte buffers `"GIF87a"` and `"GIF89a"` both classify as
`(image/gif, gif)`: two alternatives of the same rule give the same
format. -/
theorem C9_gif_alternatives :
    from_bytes [71, 73, 70, 56, 55, 97] = ⟨"image/gif", "gif"⟩ ∧
      from_bytes [71, 73, 70, 56, 57, 97] = ⟨"image/gif", "gif"⟩ := by
  constructor <;> rfl

/-! Equivalence of the generated matcher with the specified
algorithm (C1) -/

lemma slice_eq_iff_pointwise (b : List Nat) (o : Nat) (v : List Nat)
    (_hl : o + v.length ≤ b.length) :
    (b.drop o).take v.length = v ↔
      ∀ i, i < v.length → b[o + i]? = v[i]? := by
  constructor
  · intro h i hi
    have hg := congrArg (fun l : List Nat => l[i]?) h
    simp only [slice_getElem?, hi, if_pos] at hg
    exact hg
  · intro h
    refine List.ext_getElem? fun i => ?_
    rw [slice_getElem?]
    by_cases hi : i < v.length
    · rw [if_pos hi]
      exact h i hi
    · rw [if_neg hi, Eq.comm]
      exact List.getElem?_eq_none_iff.mpr (Nat.not_lt.mp hi)

lemma matchPart_eq_spec (b : List Nat) (p : SignaturePart) :
    matchPart b p = specPartMatches b p := by
  by_cases hl : p.offset + p.value.length ≤ b.length
  · refine Bool.coe_iff_coe.mp ?_
    rw [matchPart_iff]
    unfold specPartMatches
    simp only [Bool.and_eq_true, decide_eq_true_eq]
    constructor
    · rintro ⟨h1, h2⟩
      exact ⟨h1, (slice_eq_iff_pointwise b _ _ h1).mp h2⟩
    · rintro ⟨h1, h2⟩
      exact ⟨h1, (slice_eq_iff_pointwise b _ _ h1).mpr h2⟩
  · rw [matchPart_false_of_short b p (Nat.not_le.mp hl)]
    unfold specPartMatches
    rw [decide_eq_false hl, Bool.false_and]

/-- C1: `from_bytes` computes exactly the result described by the spec:
the format of the first rule of the table, in declared order, having an
alternative all of whose parts pass the bounds-checked pointwise
comparison, and the default format `(application/octet-stream, bin)`
when no rule succeeds. -/
theorem C1_first_match_semantics :
    ∀ b : List Nat, from_bytes b = specClassify b := by
  intro b
  have hf : matchPart b = specPartMatches b := funext (matchPart_eq_spec b)
  unfold from_bytes specClassify from_signature specFirstRule matchRule matchAlt
  rw [hf]

/-! Panic-freedom of the matcher (C2) -/

lemma matchPartChecked_eq (b : List Nat) (p : SignaturePart) :
    matchPartChecked b p = some (matchPart b p) := by
  unfold matchPartChecked slice? matchPart
  by_cases h : p.offset + p.value.length ≤ b.length
  · rw [if_pos h, if_pos h, decide_eq_true h]
    simp
  · rw [if_neg h, decide_eq_false h]
    simp

lemma matchAltChecked_eq (b : List Nat) (ps : List SignaturePart) :
    matchAltChecked b ps = some (matchAlt b ps) := by
  induction ps with
  | nil => rfl
  | cons p ps ih =>
    rw [matchAltChecked, matchPartChecked_eq]
    unfold matchAlt
    rw [List.all_cons]
    cases hmp : matchPart b p
    · simp
    · simpa using ih

lemma matchAltsChecked_eq (b : List Nat) (alts : List (List SignaturePart)) :
    matchAltsChecked b alts = some (alts.any (matchAlt b)) := by
  induction alts with
  | nil => rfl
  | cons a alts ih =>
    rw [matchAltsChecked, matchAltChecked_eq, List.any_cons]
    cases hma : matchAlt b a
    · simpa using ih
    · simp

lemma scanChecked_eq (b : List Nat) (rs : List Rule) :
    scanChecked b rs = some ((rs.find? (matchRule b)).map Rule.fmt) := by
  induction rs with
  | nil => rfl
  | cons r rs ih =>
    rw [scanChecked, matchAltsChecked_eq]
    have hdef : r.alts.any (matchAlt b) = matchRule b r := rfl
    rw [hdef]
    cases hmr : matchRule b r
    · rw [List.find?_cons_of_neg _ (by simp [hmr])]
      simpa using ih
    · rw [List.find?_cons_of_pos _ hmr]
      simp

/-- C2: for every byte buffer the matcher runs to completion with no
panic — the panic-aware model returns `some`, agreeing with
`from_bytes` — and a part whose window `offset + len(pattern)` exceeds
the buffer length is simply a non-match, its slice comparison never
being evaluated. -/
theorem C2_totality :
    ∀ b : List Nat,
      from_bytesChecked b = some (from_bytes b) ∧
        ∀ o : Nat, ∀ v : List Nat, b.length < o + v.length →
          matchPart b ⟨o, v⟩ = false := by
  intro b
  constructor
  · unfold from_bytesChecked from_signatureChecked from_bytes
    rw [scanChecked_eq]
    rfl
  · intro o v h
    exact matchPart_false_of_short b ⟨o, v⟩ h

/-- Witness for C2 at the three-byte buffer `[0x50, 0x4B, 0x03]`, one
byte short of the four-byte ZIP local header pattern at offset zero. -/
theorem C2_totality_witness :
    from_bytesChecked [80, 75, 3] = some (from_bytes [80, 75, 3]) ∧
      matchPart [80, 75, 3] ⟨0, [80, 75, 3, 4]⟩ = false :=
  ⟨(C2_totality [80, 75, 3]).1,
    (C2_totality [80, 75, 3]).2 0 [80, 75, 3, 4] (by decide)⟩

/-! The bounded input window (C7) -/

lemma any_congr_mem {α} (p q : α → Bool) (l : List α)
    (h : ∀ a ∈ l, p a = q a) : l.any p = l.any q := by
  induction l with
  | nil => rfl
  | cons a t ih =>
    rw [List.any_cons, List.any_cons, h a (List.mem_cons_self a t),
      ih fun x hx => h x (List.mem_cons_of_mem _ hx)]

lemma all_congr_mem {α} (p q : α → Bool) (l : List α)
    (h : ∀ a ∈ l, p a = q a) : l.all p = l.all q := by
  induction l with
  | nil => rfl
  | cons a t ih =>
    rw [List.all_cons, List.all_cons, h a (List.mem_cons_self a t),
      ih fun x hx => h x (List.mem_cons_of_mem _ hx)]

lemma matchPart_take (b : List Nat) (N : Nat) (p : SignaturePart)
    (h : p.offset + p.value.length ≤ N) :
    matchPart (b.take N) p = matchPart b p := by
  unfold matchPart
  have hlen : decide (p.offset + p.value.length ≤ (b.take N).length) =
      decide (p.offset + p.value.length ≤ b.length) := by
    refine decide_eq_decide.mpr ?_
    rw [List.length_take]
    omega
  have hs : ((b.take N).drop p.offset).take p.value.length =
      (b.drop p.offset).take p.value.length := by
    rw [List.drop_take, List.take_take]
    congr 1
    omega
  rw [hlen, hs]

/-- C7: bytes at index `MAX_BYTES = 36870` or beyond never influence the
result: every part window of the table lies inside `MAX_BYTES` (the
maximum, `0x9001 + 5`, is attained by the `application/x-iso9660-image`
rule), and `from_bytes` of any buffer equals `from_bytes` of its first
`MAX_BYTES` bytes. -/
theorem C7_bounded_window :
    (table.all fun r => r.alts.all fun a =>
      a.all fun p => decide (p.offset + p.value.length ≤ MAX_BYTES)) = true ∧
    (table.any fun r => r.alts.any fun a =>
      a.any fun p => decide (p.offset + p.value.length = MAX_BYTES)) = true ∧
    ∀ b : List Nat, from_bytes b = from_bytes (b.take MAX_BYTES) := by
  refine ⟨table_window, by decide, fun b => ?_⟩
  unfold from_bytes from_signature
  rw [find?_congr_mem (matchRule b) (matchRule (b.take MAX_BYTES)) table ?_]
  intro r hr
  have hw := List.all_eq_true.mp table_window r hr
  unfold matchRule matchAlt
  refine any_congr_mem _ _ _ fun a ha => ?_
  refine all_congr_mem _ _ _ fun p hp => ?_
  have hple : p.offset + p.value.length ≤ MAX_BYTES :=
    of_decide_eq_true (List.all_eq_true.mp (List.all_eq_true.mp hw a ha) p hp)
  exact (matchPart_take b MAX_BYTES p hple).symm

/-! PNG and APNG (C6) -/

lemma sound_possPng (mid rest : List Nat) (_hm : mid.length = 29) :
    Sound ([137, 80, 78, 71, 13, 10, 26, 10] ++ (mid ++ ([97, 99, 84, 76] ++ rest)))
      possPng := by
  intro i w hw
  by_cases hi : i < 8
  · right
    rw [List.getElem?_append, if_pos (by simpa using hi)] at hw
    unfold possPng
    rw [if_pos hi]
    interval_cases i <;> simp_all
  · left
    unfold possPng
    rw [if_neg hi]

lemma apng_matches (mid rest : List Nat) (hm : mid.length = 29) :
    matchRule ([137, 80, 78, 71, 13, 10, 26, 10] ++ (mid ++ ([97, 99, 84, 76] ++ rest)))
      rule12 = true := by
  have hlen : ([137, 80, 78, 71, 13, 10, 26, 10] ++ (mid ++ ([97, 99, 84, 76] ++ rest))).length =
      41 + rest.length := by
    simp only [List.length_append, List.length_cons, List.length_nil, hm]
    omega
  have h1 : matchPart ([137, 80, 78, 71, 13, 10, 26, 10] ++ (mid ++ ([97, 99, 84, 76] ++ rest)))
      ⟨0, [137, 80, 78, 71, 13, 10, 26, 10]⟩ = true := by
    refine matchPart_of_slice _ 0 _ ?_ ?_
    · rw [hlen]
      simp only [List.length_cons, List.length_nil]
      omega
    · rw [List.drop_zero]
      exact List.take_left' rfl
  have h2 : matchPart ([137, 80, 78, 71, 13, 10, 26, 10] ++ (mid ++ ([97, 99, 84, 76] ++ rest)))
      ⟨37, [97, 99, 84, 76]⟩ = true := by
    refine matchPart_of_slice _ 37 _ ?_ ?_
    · rw [hlen]
      simp only [List.length_cons, List.length_nil]
      omega
    · rw [← List.append_assoc, List.drop_left' (by simp [hm])]
      exact List.take_left' rfl
  unfold rule12 matchRule matchAlt
  simp only [List.any_cons, List.any_nil, List.all_cons, List.all_nil]
  rw [h1, h2]
  rfl

/-- C6: the exact eight-byte PNG header classifies as `(image/png, png)`,
and every buffer carrying the PNG header at offset 0 and the literal
`"acTL"` at offset `0x25` classifies as `(image/apng, apng)`: the
two-part APNG rule precedes the one-part PNG rule in the table, so it
wins whenever both match. -/
theorem C6_png_apng :
    ∀ mid rest : List Nat, mid.length = 29 →
      from_bytes [137, 80, 78, 71, 13, 10, 26, 10] = ⟨"image/png", "png"⟩ ∧
      from_bytes ([137, 80, 78, 71, 13, 10, 26, 10] ++ mid ++ [97, 99, 84, 76] ++ rest) =
        ⟨"image/apng", "apng"⟩ := by
  intro mid rest hm
  refine ⟨by rfl, ?_⟩
  rw [show [137, 80, 78, 71, 13, 10, 26, 10] ++ mid ++ [97, 99, 84, 76] ++ rest =
      [137, 80, 78, 71, 13, 10, 26, 10] ++ (mid ++ ([97, 99, 84, 76] ++ rest)) from by
    simp [List.append_assoc]]
  unfold from_bytes from_signature
  rw [show table = table.take 12 ++ table.drop 12 from (List.take_append_drop 12 table).symm]
  rw [find?_append_none _ _ _
    (find?_eq_none_of_kills _ possPng _ (sound_possPng mid rest hm) (by rfl))]
  rw [show table.drop 12 = rule12 :: table.drop 13 from rfl]
  rw [List.find?_cons_of_pos _ (apng_matches mid rest hm)]
  rfl

/-- Witness for C6 with all-zero filler between the PNG header and the
`acTL` token and nothing after it. -/
theorem C6_png_apng_witness :
    from_bytes [137, 80, 78, 71, 13, 10, 26, 10] = ⟨"image/png", "png"⟩ ∧
      from_bytes ([137, 80, 78, 71, 13, 10, 26, 10] ++ List.replicate 29 0 ++
        [97, 99, 84, 76] ++ []) = ⟨"image/apng", "apng"⟩ :=
  C6_png_apng (List.replicate 29 0) [] (by decide)

/-! RIFF containers (C4) -/

lemma sound_possRiff (f tag : List Nat) (n : Nat)
    (hf : f.length = 4) (ht : tag.length = 4) :
    Sound ([82, 73, 70, 70] ++ (f ++ (tag ++ List.replicate n 0)))
      (possRiff tag) := by
  intro i w hw
  by_cases h4 : i < 4
  · right
    rw [List.getElem?_append, if_pos (by simpa using h4)] at hw
    unfold possRiff
    rw [if_pos h4]
    interval_cases i <;> simp_all
  by_cases h8 : i < 8
  · left
    unfold possRiff
    rw [if_neg h4, if_neg (by omega), if_neg (by omega)]
  by_cases h12 : i < 12
  · right
    rw [show [82, 73, 70, 70] ++ (f ++ (tag ++ List.replicate n 0)) =
        ([82, 73, 70, 70] ++ f) ++ (tag ++ List.replicate n 0) from
      (List.append_assoc _ _ _).symm] at hw
    rw [List.getElem?_append, if_neg (by simp [hf]; omega)] at hw
    rw [List.getElem?_append, if_pos (by simp [hf, ht]; omega)] at hw
    unfold possRiff
    rw [if_neg h4, if_pos ⟨by omega, h12⟩]
    have hlen : ([82, 73, 70, 70] ++ f).length = 8 := by simp [hf]
    rw [hlen] at hw
    rw [List.getD_eq_getElem?_getD, show i - 8 = i - ([82, 73, 70, 70] ++ f).length from by
      rw [hlen], hlen, hw]
    simp
  · right
    rw [show [82, 73, 70, 70] ++ (f ++ (tag ++ List.replicate n 0)) =
        (([82, 73, 70, 70] ++ f) ++ tag) ++ List.replicate n 0 from by
      simp [List.append_assoc]] at hw
    rw [List.getElem?_append, if_neg (by simp [hf, ht]; omega)] at hw
    rw [List.getElem?_replicate] at hw
    unfold possRiff
    rw [if_neg h4, if_neg (by omega), if_pos (by omega)]
    by_cases hn : i - (([82, 73, 70, 70] ++ f) ++ tag).length < n
    · rw [if_pos hn] at hw
      simp at hw
      simp [hw]
    · rw [if_neg hn] at hw
      exact absurd hw (by simp)

lemma matchRule_riff (f tag : List Nat) (n : Nat)
    (hf : f.length = 4) (ht : tag.length = 4) (m e : String) :
    matchRule ([82, 73, 70, 70] ++ (f ++ (tag ++ List.replicate n 0)))
      ⟨m, e, [[⟨0, [82, 73, 70, 70]⟩, ⟨8, tag⟩]]⟩ = true := by
  have hlen : ([82, 73, 70, 70] ++ (f ++ (tag ++ List.replicate n 0))).length = 12 + n := by
    simp [hf, ht]
    omega
  have h1 : matchPart ([82, 73, 70, 70] ++ (f ++ (tag ++ List.replicate n 0)))
      ⟨0, [82, 73, 70, 70]⟩ = true := by
    refine matchPart_of_slice _ 0 _ ?_ ?_
    · rw [hlen]
      simp only [List.length_cons, List.length_nil]
      omega
    · rw [List.drop_zero]
      exact List.take_left' rfl
  have h2 : matchPart ([82, 73, 70, 70] ++ (f ++ (tag ++ List.replicate n 0)))
      ⟨8, tag⟩ = true := by
    refine matchPart_of_slice _ 8 _ ?_ ?_
    · rw [hlen, ht]
      omega
    · rw [show [82, 73, 70, 70] ++ (f ++ (tag ++ List.replicate n 0)) =
          ([82, 73, 70, 70] ++ f) ++ (tag ++ List.replicate n 0) from
        (List.append_assoc _ _ _).symm]
      rw [List.drop_left' (by simp [hf])]
      exact List.take_left' rfl
  unfold matchRule matchAlt
  simp only [List.any_cons, List.any_nil, List.all_cons, List.all_nil]
  rw [h1, h2]
  rfl

lemma riff_classify (f tag : List Nat) (n : Nat) (k : Nat) (r : Rule)
    (hf : f.length = 4) (ht : tag.length = 4)
    (hk : (table.take k).all (killsRule (possRiff tag)) = true)
    (hdrop : table.drop k = r :: table.drop (k + 1))
    (hr : matchRule ([82, 73, 70, 70] ++ (f ++ (tag ++ List.replicate n 0))) r = true) :
    from_bytes ([82, 73, 70, 70] ++ (f ++ (tag ++ List.replicate n 0))) = r.fmt := by
  unfold from_bytes from_signature
  rw [show table = table.take k ++ table.drop k from (List.take_append_drop k table).symm]
  rw [find?_append_none _ _ _
    (find?_eq_none_of_kills _ (possRiff tag) _ (sound_possRiff f tag n hf ht) hk)]
  rw [hdrop, List.find?_cons_of_pos _ hr]
  rfl

/-- C4 counterexample: a buffer that begins with `"RIFF"`, has `"WAVE"`
at offset 8 and carries `"BOOKMOBI"` in its trailing bytes at offset 60
classifies as `(application/x-mobipocket-ebook, mobi)` — the mobi rule
precedes the wave rule in the table — so with arbitrary trailing bytes
the claimed result `(audio/vnd.wave, wav)` does not hold. -/
theorem C4_counterexample :
    from_bytes ([82, 73, 70, 70] ++ [0, 0, 0, 0] ++ [87, 65, 86, 69] ++
        (List.replicate 48 0 ++ [66, 79, 79, 75, 77, 79, 66, 73])) =
      ⟨"application/x-mobipocket-ebook", "mobi"⟩ ∧
      (⟨"application/x-mobipocket-ebook", "mobi"⟩ : FileFormat) ≠
        ⟨"audio/vnd.wave", "wav"⟩ := by
  constructor
  · rfl
  · decide

/-- C4 amended: for every four filler bytes at offsets 4..8 and any
number of trailing zero bytes, a buffer beginning with `"RIFF"` and
carrying `"WAVE"`, `"WEBP"` or `"AVI "` at offset 8 classifies as
`(audio/vnd.wave, wav)`, `(image/webp, webp)` or `(video/avi, avi)`
respectively (the original claim allowed arbitrary trailing bytes, which
can reach an earlier rule such as mobi). -/
theorem C4_amended_riff :
    ∀ f : List Nat, ∀ n : Nat, f.length = 4 →
      from_bytes ([82, 73, 70, 70] ++ f ++ [87, 65, 86, 69] ++ List.replicate n 0) =
        ⟨"audio/vnd.wave", "wav"⟩ ∧
      from_bytes ([82, 73, 70, 70] ++ f ++ [87, 69, 66, 80] ++ List.replicate n 0) =
        ⟨"image/webp", "webp"⟩ ∧
      from_bytes ([82, 73, 70, 70] ++ f ++ [65, 86, 73, 32] ++ List.replicate n 0) =
        ⟨"video/avi", "avi"⟩ := by
  intro f n hf
  have hassoc : ∀ tag : List Nat,
      [82, 73, 70, 70] ++ f ++ tag ++ List.replicate n 0 =
        [82, 73, 70, 70] ++ (f ++ (tag ++ List.replicate n 0)) := by
    intro tag
    simp [List.append_assoc]
  refine ⟨?_, ?_, ?_⟩
  · rw [hassoc]
    exact riff_classify f [87, 65, 86, 69] n 39 rule39 hf rfl (by rfl) rfl
      (matchRule_riff f [87, 65, 86, 69] n hf rfl _ _)
  · rw [hassoc]
    exact riff_classify f [87, 69, 66, 80] n 43 rule43 hf rfl (by rfl) rfl
      (matchRule_riff f [87, 69, 66, 80] n hf rfl _ _)
  · rw [hassoc]
    exact riff_classify f [65, 86, 73, 32] n 45 rule45 hf rfl (by rfl) rfl
      (matchRule_riff f [65, 86, 73, 32] n hf rfl _ _)

/-- Witness for C4 amended with a zero filler and no trailing bytes. -/
theorem C4_amended_riff_witness :
    from_bytes ([82, 73, 70, 70] ++ [0, 0, 0, 0] ++ [87, 65, 86, 69] ++ List.replicate 0 0) =
        ⟨"audio/vnd.wave", "wav"⟩ ∧
      from_bytes ([82, 73, 70, 70] ++ [0, 0, 0, 0] ++ [87, 69, 66, 80] ++ List.replicate 0 0) =
        ⟨"image/webp", "webp"⟩ ∧
      from_bytes ([82, 73, 70, 70] ++ [0, 0, 0, 0] ++ [65, 86, 73, 32] ++ List.replicate 0 0) =
        ⟨"video/avi", "avi"⟩ :=
  C4_amended_riff [0, 0, 0, 0] 0 (by decide)
